import Mathlib

/-!
# Verification of the `tracing-honeycomb` distributed-tracing bridge

Shallow embedding of the two crates under `src/`:

* `tracing-distributed` — the span-lifecycle layer (`telemetry_layer.rs`),
  the distributed-context API (`trace.rs`) and the completed-record model.
* `tracing-otlp` — the OTLP adapter (`lib.rs`), export worker (`worker.rs`),
  builder (`builder.rs`) and identifier types (`id.rs`).

Conventions of the embedding:

* The ambient `tracing_subscriber::Registry` is modelled as an association
  list from the registry's native span id (a `Nat`, standing for
  `tracing::span::Id`) to that span's data: its dynamic parent, its name,
  and the per-span scratch extensions the layer inserts.
* `SystemTime` is modelled as `Int`: nanoseconds relative to the Unix epoch
  (negative values are times before the epoch, where
  `duration_since(UNIX_EPOCH)` fails).
* The generic layer is polymorphic in the visitor type `V`, `SpanId` type
  `S` and `TraceId` type `T`, exactly as `TelemetryLayer<T, SpanId, TraceId>`.
* `tracing::Metadata` pointers (`meta` fields) are external static data with
  no observable structure in the claims; they are omitted from the records.
-/

namespace TracingDistributed

/-- `TraceCtxError` from `trace.rs`. -/
inductive TraceCtxError where
  | TelemetryLayerNotRegistered
  | RegistrySubscriberNotRegistered
  | NoEnabledSpan
  | NoParentNodeHasTraceCtx
  deriving DecidableEq, Repr

/-- `TraceCtx<SpanId, TraceId>` from `telemetry_layer.rs`. -/
structure TraceCtx (S T : Type) where
  parent_span : Option S
  trace_id : T
  deriving DecidableEq, Repr

/-- `Event<Visitor, SpanId, TraceId>` from `trace.rs` (the completed record;
the `meta : &'static Metadata` field is external and omitted). -/
structure EventRec (V S T : Type) where
  trace_id : Option T
  parent_id : Option S
  initialized_at : Int
  service_name : String
  values : V
  deriving DecidableEq, Repr

/-- `Span<Visitor, SpanId, TraceId>`, the completed record of `trace.rs`,
with the fields exactly as `on_close` constructs it in `telemetry_layer.rs`
(which additionally carries the optional follows-from link taken from the
`FollowsFrom` extension); the `meta : &'static Metadata` field is external
and omitted. -/
structure SpanRec (V S T : Type) where
  id : S
  name : String
  trace_id : T
  parent_id : Option S
  follows_from : Option (T × S)
  initialized_at : Int
  completed_at : Int
  service_name : String
  values : V
  deriving DecidableEq, Repr

/-- The scratch extensions the layer keeps for one live span: `SpanInitAt`,
`PromotedSpanId`, the visitor, the pending-events list, and the optional
`TraceCtx` and `FollowsFrom` extensions (`telemetry_layer.rs`). -/
structure Scratch (V S T : Type) where
  span_init_at : Int
  promoted : S
  visitor : V
  events : List (EventRec V S T)
  trace_ctx : Option (TraceCtx S T)
  follows_from : Option (T × S)
  deriving DecidableEq, Repr

/-- One span held by the ambient registry: its dynamic parent (the native id
of the span under which it was opened, as reported by `span.parent()`), its
static name, and the scratch extensions. -/
structure SpanData (V S T : Type) where
  parent : Option Nat
  name : String
  scratch : Scratch V S T
  deriving DecidableEq, Repr

/-- The ambient registry's live-span store, keyed by native span id. -/
def Registry (V S T : Type) : Type := List (Nat × SpanData V S T)

instance (V S T : Type) [DecidableEq V] [DecidableEq S] [DecidableEq T] :
    DecidableEq (Registry V S T) :=
  inferInstanceAs (DecidableEq (List (Nat × SpanData V S T)))

/-- `ctx.span(id)` / `registry.span(id)`: look a live span up by native id. -/
def lookupSpan {V S T : Type} (st : Registry V S T) (id : Nat) :
    Option (SpanData V S T) :=
  match st with
  | [] => none
  | (k, d) :: rest => if k = id then some d else lookupSpan rest id

/-- Rewrite the data stored for native id `id`, leaving other spans alone
(models a mutation through the registry's per-span extensions lock). -/
def updateSpan {V S T : Type} (st : Registry V S T) (id : Nat)
    (f : SpanData V S T → SpanData V S T) : Registry V S T :=
  match st with
  | [] => []
  | (k, d) :: rest =>
    if k = id then (k, f d) :: updateSpan rest id f
    else (k, d) :: updateSpan rest id f

/-- The registry destroys a span's data when the span is closed. -/
def removeSpan {V S T : Type} (st : Registry V S T) (id : Nat) :
    Registry V S T :=
  st.filter (fun p => p.1 ≠ id)

/-- The configuration of `TelemetryLayer<T, SpanId, TraceId>` fixed at
construction (`TelemetryLayer::new`): the service name and the
`promote_span_id` function from native ids to `S`.  The telemetry capability
itself is modelled by returning the records that would be passed to
`report_span` / `report_event`. -/
structure TelemetryLayer (S T : Type) where
  service_name : String
  promote_span_id : Nat → S

/-- `Layer::on_new_span` (`telemetry_layer.rs` lines 62–93).  `parent` is the
dynamic parent reported by `span.parent()`; `now` is the `SystemTime::now()`
reading taken by `SpanInitAt::new`; `visitor` is the fresh visitor after
`attrs.record(&mut visitor)` primed it with the opening attributes. -/
def on_new_span {V S T : Type} (L : TelemetryLayer S T) (st : Registry V S T)
    (id : Nat) (parent : Option Nat) (name : String) (now : Int) (visitor : V) :
    Registry V S T :=
  let pinfo : Option (T × S) := parent.bind fun p =>
    (lookupSpan st p).bind fun pd =>
      pd.scratch.trace_ctx.map fun t => (t.trace_id, pd.scratch.promoted)
  let scratch : Scratch V S T :=
    { span_init_at := now
      promoted := L.promote_span_id id
      visitor := visitor
      events := []
      trace_ctx := pinfo.map fun ti => { trace_id := ti.1, parent_span := some ti.2 }
      follows_from := none }
  (id, { parent := parent, name := name, scratch := scratch }) :: st

/-- `register_dist_tracing_root` (`trace.rs` lines 6–32).  `current` is the
native id of `tracing::Span::current()` when one is active; `registryOk`
models whether the dispatch downcasts to `tracing_subscriber::Registry`.
`.replace(TraceCtx { .. })` overwrites any prior context of the current
span. -/
def register_dist_tracing_root {V S T : Type} (st : Registry V S T)
    (current : Option Nat) (registryOk : Bool) (trace_id : T)
    (remote_parent_span : Option S) :
    Except TraceCtxError (Registry V S T) :=
  match current with
  | none => .error .NoEnabledSpan
  | some c =>
    if registryOk then
      -- `registry.span(id).expect("Span should be present in registry")`:
      -- the registry holds every enabled span, so the update finds `c`.
      .ok (updateSpan st c fun sd =>
        { sd with
          scratch := { sd.scratch with
            trace_ctx := some { parent_span := remote_parent_span, trace_id := trace_id } } })
    else .error .RegistrySubscriberNotRegistered

/-- `current_dist_trace_ctx` (`trace.rs` lines 37–69): two separate registry
lookups, the first reading the `TraceCtx` extension's `trace_id`, the second
the `PromotedSpanId` extension; each missing step maps to
`NoParentNodeHasTraceCtx`, and an absent current span to `NoEnabledSpan`. -/
def current_dist_trace_ctx {V S T : Type} (st : Registry V S T)
    (current : Option Nat) (registryOk : Bool) :
    Except TraceCtxError (T × S) :=
  match current with
  | none => .error .NoEnabledSpan
  | some c =>
    if registryOk then
      match (lookupSpan st c).bind fun sd =>
          sd.scratch.trace_ctx.map fun x => x.trace_id with
      | none => .error .NoParentNodeHasTraceCtx
      | some trace_id =>
        match (lookupSpan st c).map fun sd => sd.scratch.promoted with
        | none => .error .NoParentNodeHasTraceCtx
        | some span_id => .ok (trace_id, span_id)
    else .error .RegistrySubscriberNotRegistered

/-- The effect of one `on_event` callback on the telemetry capability:
reported immediately through `report_event`, dropped, or attached to the
pending-events list of the parent span with the given native id. -/
inductive EventEffect (V S T : Type) where
  | reported (e : EventRec V S T)
  | dropped
  | attached (parent : Nat) (e : EventRec V S T)
  deriving DecidableEq, Repr

/-- The parent-resolution at the top of `Layer::on_event`
(`telemetry_layer.rs` lines 105–114): explicit parent first, then `None` for
an explicitly-root event, else the current span from the thread-local
context. -/
def resolveEventParent (explicitParent : Option Nat) (isRoot : Bool)
    (current : Option Nat) : Option Nat :=
  match explicitParent with
  | some p => some p
  | none => if isRoot then none else current

/-- `Layer::on_event` (`telemetry_layer.rs` lines 104–167).  `now` is the
`SystemTime::now()` reading, `visitor` the fresh visitor after
`event.record(&mut visitor)`. -/
def on_event {V S T : Type} (L : TelemetryLayer S T) (st : Registry V S T)
    (explicitParent : Option Nat) (isRoot : Bool) (current : Option Nat)
    (now : Int) (visitor : V) :
    EventEffect V S T × Registry V S T :=
  match resolveEventParent explicitParent isRoot current with
  | none =>
    (.reported { trace_id := none, parent_id := none, initialized_at := now
                 service_name := L.service_name, values := visitor }, st)
  | some parent_id =>
    -- `ctx.span(&parent_id).and_then(|s| s.extensions().get::<TraceCtx>())`
    match lookupSpan st parent_id with
    | none => (.dropped, st)
    | some sd =>
      match sd.scratch.trace_ctx with
      | none => (.dropped, st)
      | some parent_trace_ctx =>
        let e : EventRec V S T :=
          { trace_id := some parent_trace_ctx.trace_id
            parent_id := some sd.scratch.promoted
            initialized_at := now
            service_name := L.service_name
            values := visitor }
        (.attached parent_id e,
          updateSpan st parent_id fun d =>
            { d with scratch := { d.scratch with events := d.scratch.events ++ [e] } })

/-- The body of `Layer::on_close` (`telemetry_layer.rs` lines 169–221) once
the registry lookup for the closing span produced `d`: if the scratch holds a
`TraceCtx`, build the completed `Span` record and return it together with the
pending events (the arguments of `report_span`); otherwise report nothing. -/
def on_close_data {V S T : Type} (L : TelemetryLayer S T) (d : SpanData V S T)
    (now : Int) : Option (SpanRec V S T × List (EventRec V S T)) :=
  match d.scratch.trace_ctx with
  | none => none
  | some trace_ctx =>
    some ({ id := d.scratch.promoted
            name := d.name
            trace_id := trace_ctx.trace_id
            parent_id := trace_ctx.parent_span
            follows_from := d.scratch.follows_from
            initialized_at := d.scratch.span_init_at
            completed_at := now
            service_name := L.service_name
            values := d.scratch.visitor }, d.scratch.events)

/-- `Layer::on_close` over the registry: the reported record (if any) and the
registry after the span's data is destroyed. -/
def on_close {V S T : Type} (L : TelemetryLayer S T) (st : Registry V S T)
    (id : Nat) (now : Int) :
    Option (SpanRec V S T × List (EventRec V S T)) × Registry V S T :=
  match lookupSpan st id with
  | none => (none, st)  -- `expect("span data not found during on_close")`
  | some d => (on_close_data L d now, removeSpan st id)

end TracingDistributed

namespace TracingOtlp

open TracingDistributed

/-- `any_value::Value` from the generated OTLP protobuf common module,
restricted to the variants this crate constructs (`prost.rs` provides `From`
impls for `String`, `bool`, `i64`, `f64`; the `f64` payload is modelled
opaquely as the claims never inspect doubles, and the remaining protobuf
variants are never built by this code). -/
inductive Value where
  | stringValue (s : String)
  | boolValue (b : Bool)
  | intValue (i : Int)
  | doubleValue
  deriving DecidableEq, Repr

/-- `AnyValue` from the OTLP protobuf common module. -/
structure AnyValue where
  value : Option Value
  deriving DecidableEq, Repr

/-- `KeyValue` from the OTLP protobuf common module. -/
structure KeyValue where
  key : String
  value : Option AnyValue
  deriving DecidableEq, Repr

/-- `KeyValue::new` from `visitor.rs`. -/
def KeyValue.new (key : String) (value : Value) : KeyValue :=
  { key := key, value := some { value := some value } }

/-- `Visitor` from `visitor.rs`: `pub struct Visitor(pub Vec<KeyValue>)`. -/
def Visitor : Type := List KeyValue

instance : DecidableEq Visitor := inferInstanceAs (DecidableEq (List KeyValue))

/-- `SpanId` from `id.rs` wraps a `u64`; modelled as a `Nat` below `2^64`.
`TraceId` wraps a `u128`; modelled as a `Nat` below `2^128`.  Both are used
directly as `Nat` in the embedding; the `u64`/`u128` ranges appear as
hypotheses where byte encodings are decoded. -/
def spanIdBits : Nat := 64

/-- The width in bits of `TraceId`'s carrier `u128`. -/
def traceIdBits : Nat := 128

/-- `u64::to_le_bytes` / `u128::to_le_bytes`: the `w` little-endian bytes of
`n` (byte `i` is `(n >> (8*i)) & 0xFF`). -/
def toLeBytes : Nat → Nat → List Nat
  | _, 0 => []
  | n, w + 1 => n % 256 :: toLeBytes (n / 256) w

/-- Little-endian decoding of a byte list back to the integer it encodes. -/
def fromLeBytes : List Nat → Nat
  | [] => 0
  | b :: bs => b + 256 * fromLeBytes bs

/-- `span::Event` from the generated OTLP trace protobuf (`lib.rs` builds
these from pending `EventRec`s). -/
structure ProtoEvent where
  time_unix_nano : Nat
  name : String
  attributes : List KeyValue
  dropped_attributes_count : Nat
  deriving DecidableEq, Repr

/-- `Span` from the generated OTLP trace protobuf, with byte strings as
`List Nat` and the `links`/`status` fields that this crate always leaves
empty kept as such. -/
structure ProtoSpan where
  trace_id : List Nat
  span_id : List Nat
  trace_state : String
  parent_span_id : List Nat
  flags : Nat
  name : String
  kind : Nat
  start_time_unix_nano : Nat
  end_time_unix_nano : Nat
  attributes : List KeyValue
  dropped_attributes_count : Nat
  events : List ProtoEvent
  dropped_events_count : Nat
  links : List Unit
  dropped_links_count : Nat
  status : Option Unit
  deriving DecidableEq, Repr

/-- `system_time_to_unix_nanos` (`lib.rs` lines 144–151):
`duration_since(UNIX_EPOCH)` fails exactly for times before the epoch, in
which case `Duration::ZERO` is substituted (and a line is printed to the
error side channel); otherwise the nanosecond count (`u128`) is truncated by
`as u64`. -/
def system_time_to_unix_nanos (t : Int) : Nat :=
  if t < 0 then 0 else t.toNat % 2 ^ 64

/-- The OTLP `Span` built by `Otlp::report_span` (`lib.rs` lines 97–132) from
a completed span record and its pending events. -/
def otlpSpanOf (span : SpanRec Visitor Nat Nat)
    (events : List (EventRec Visitor Nat Nat)) : ProtoSpan :=
  { trace_id := toLeBytes span.trace_id 16
    span_id := toLeBytes span.id 8
    trace_state := ""
    parent_span_id := (span.parent_id.map fun pid => toLeBytes pid 8).getD []
    flags := 0
    name := span.name
    kind := 0
    start_time_unix_nano := system_time_to_unix_nanos span.initialized_at
    end_time_unix_nano := system_time_to_unix_nanos span.completed_at
    attributes := span.values
    dropped_attributes_count := 0
    events := events.map fun ev =>
      { time_unix_nano := system_time_to_unix_nanos ev.initialized_at
        name := "event"
        attributes := ev.values
        dropped_attributes_count := 0 }
    dropped_events_count := 0
    links := []
    dropped_links_count := 0
    status := none }

/-- `Otlp::report_span`: builds the protobuf span and performs
`self.tx.send(span).expect("Worker thread should not crash")`.
`receiverAlive` models whether the worker thread (the channel's receiver)
is still running: `send` fails exactly when the receiver was deallocated,
and `.expect` turns that failure into a panic (the `.error` case); otherwise
the call returns normally having queued the message (`.ok`). -/
def Otlp.report_span (receiverAlive : Bool) (span : SpanRec Visitor Nat Nat)
    (events : List (EventRec Visitor Nat Nat)) : Except String ProtoSpan :=
  let s := otlpSpanOf span events
  if receiverAlive then .ok s else .error "Worker thread should not crash"

/-- `Otlp::report_event` (`lib.rs` lines 137–141): a no-op. -/
def Otlp.report_event (_event : EventRec Visitor Nat Nat) : Unit := ()

/-- `Resource` from the OTLP resource protobuf. -/
structure Resource where
  attributes : List KeyValue
  dropped_attributes_count : Nat
  deriving DecidableEq, Repr

/-- `ScopeSpans` from the OTLP trace protobuf. -/
structure ScopeSpans where
  scope : Option Unit
  spans : List ProtoSpan
  schema_url : String
  deriving DecidableEq, Repr

/-- `ResourceSpans` from the OTLP trace protobuf. -/
structure ResourceSpans where
  resource : Option Resource
  scope_spans : List ScopeSpans
  schema_url : String
  deriving DecidableEq, Repr

/-- `ExportTraceServiceRequest` from the OTLP collector protobuf. -/
structure ExportTraceServiceRequest where
  resource_spans : List ResourceSpans
  deriving DecidableEq, Repr

/-- The request `Worker::run_loop` builds from its buffered spans
(`worker.rs` lines 74–84): one `ResourceSpans` holding one `ScopeSpans`. -/
def mkRequest (resource : Resource) (spans : List ProtoSpan) :
    ExportTraceServiceRequest :=
  { resource_spans :=
      [{ resource := some resource
         scope_spans := [{ scope := none, spans := spans, schema_url := "" }]
         schema_url := "" }] }

/-- `protobuf_req.resource_spans[0].scope_spans[0].spans`: the spans a built
request carries (the list the worker takes back on transport failure). -/
def requestSpans (req : ExportTraceServiceRequest) : List ProtoSpan :=
  match req.resource_spans with
  | rs :: _ =>
    match rs.scope_spans with
    | ss :: _ => ss.spans
    | [] => []
  | [] => []

/-- What one `rx.recv_timeout` call in `Worker::run_loop` yields. -/
inductive RecvOutcome where
  | recvSpan (s : ProtoSpan)
  | timeout
  | disconnected
  deriving DecidableEq, Repr

/-- The observable outcome of one iteration of `Worker::run_loop`
(`worker.rs` lines 55–128): the buffer afterwards, the request POSTed (if
any), and whether the loop broke (channel disconnected). -/
structure StepResult where
  buffer : List ProtoSpan
  request : Option ExportTraceServiceRequest
  halted : Bool
  deriving DecidableEq, Repr

/-- The send phase of one `run_loop` iteration, after the receive phase
updated the buffer: if the send interval elapsed and the buffer is
non-empty, build the request from the whole buffer and POST it;
`sendFails` models `req.send_bytes(&encoded)` returning `Err` (transport
failure), in which case the spans are taken back out of the request into the
buffer; on success the buffer stays empty (response header/decode issues are
only logged).  `intervalElapsed` models `last_send.elapsed() >=
send_interval`. -/
def run_loop_send (resource : Resource) (buffer : List ProtoSpan)
    (intervalElapsed : Bool) (sendFails : Bool) : StepResult :=
  if intervalElapsed then
    if buffer = [] then { buffer := buffer, request := none, halted := false }
    else
      let req := mkRequest resource buffer
      if sendFails then
        { buffer := requestSpans req, request := some req, halted := false }
      else
        { buffer := [], request := some req, halted := false }
  else { buffer := buffer, request := none, halted := false }

/-- One full iteration of `Worker::run_loop`: receive (append a span,
nothing on timeout, or break on disconnect — discarding the buffer), then
the timed send phase. -/
def run_loop_step (resource : Resource) (buffer : List ProtoSpan)
    (recv : RecvOutcome) (intervalElapsed : Bool) (sendFails : Bool) :
    StepResult :=
  match recv with
  | .disconnected => { buffer := buffer, request := none, halted := true }
  | .recvSpan s => run_loop_send resource (buffer ++ [s]) intervalElapsed sendFails
  | .timeout => run_loop_send resource buffer intervalElapsed sendFails

/-- The buffer after the receive phase of one iteration (the batch that a
subsequent elapsed-interval send would POST). -/
def bufferAfterRecv (buffer : List ProtoSpan) (recv : RecvOutcome) :
    List ProtoSpan :=
  match recv with
  | .recvSpan s => buffer ++ [s]
  | _ => buffer

/-- `Builder` from `builder.rs`: send interval (nanoseconds), accumulated
resource attributes, HTTP headers. -/
structure Builder where
  send_interval : Nat
  resource_attributes : List (String × Value)
  headers : List (String × String)
  deriving DecidableEq, Repr

/-- `Builder::default`: `send_interval = Duration::from_secs(1)`, empty
attribute and header lists. -/
def Builder.default : Builder :=
  { send_interval := 1000000000, resource_attributes := [], headers := [] }

/-- `Builder::service_name` (`builder.rs` lines 40–44): appends a
`service.name` resource attribute. -/
def Builder.service_name (b : Builder) (service_name : String) : Builder :=
  { b with resource_attributes :=
      b.resource_attributes ++ [("service.name", .stringValue service_name)] }

/-- `Builder::resource_attribute` (`builder.rs` lines 49–52). -/
def Builder.resource_attribute (b : Builder) (key : String) (value : Value) :
    Builder :=
  { b with resource_attributes := b.resource_attributes ++ [(key, value)] }

/-- `Builder::http_headers` (`builder.rs` lines 58–61). -/
def Builder.http_headers (b : Builder) (headers : List (String × String)) :
    Builder :=
  { b with headers := headers }

/-- The fully wired product of `Builder::build`: the
`TelemetryLayer<Otlp, SpanId, TraceId>` configuration together with the
configuration handed to `Otlp::new` (and from there to the worker). -/
structure OtlpLayer where
  layer : TelemetryLayer Nat Nat
  send_interval : Nat
  resource_attributes : List (String × Value)
  http_headers : List (String × String)

/-- `Builder::build` (`builder.rs` lines 71–85): parses the endpoint
(`endpointOk` models `Url::from_str` succeeding), spawns the worker, and
returns `TelemetryLayer::new("", otlp, |id| SpanId(id.into_u64()))` — the
layer-level service name is the literal empty string, and the promotion
function is the identity on the native `u64`. -/
def Builder.build (b : Builder) (endpointOk : Bool) : Option OtlpLayer :=
  if endpointOk then
    some { layer := { service_name := "", promote_span_id := fun tracing_id => tracing_id }
           send_interval := b.send_interval
           resource_attributes := b.resource_attributes
           http_headers := b.headers }
  else none

/-- `Worker::new` (`worker.rs` lines 28–53) builds the `Resource` from the
configured attributes: each `(key, v)` becomes
`KeyValue { key, value: Some(AnyValue { value: v.into() }) }`. -/
def Worker.mkResource (resource_attributes : List (String × Value)) : Resource :=
  { attributes := resource_attributes.map fun kv =>
      { key := kv.1, value := some { value := some kv.2 } }
    dropped_attributes_count := 0 }

end TracingOtlp

namespace TracingDistributed

theorem lookupSpan_cons_self {V S T : Type} (k : Nat) (d : SpanData V S T)
    (st : Registry V S T) : lookupSpan ((k, d) :: st) k = some d := by
  simp [lookupSpan]

theorem lookupSpan_updateSpan_self {V S T : Type} (st : Registry V S T) (id : Nat)
    (f : SpanData V S T → SpanData V S T) :
    lookupSpan (updateSpan st id f) id = (lookupSpan st id).map f := by
  induction st with
  | nil => rfl
  | cons hd tl ih =>
    obtain ⟨k, d⟩ := hd
    by_cases h : k = id
    · subst h
      simp [updateSpan, lookupSpan]
    · simp [updateSpan, lookupSpan, h, ih]

theorem lookupSpan_updateSpan_ne {V S T : Type} (st : Registry V S T) (id c : Nat)
    (f : SpanData V S T → SpanData V S T) (h : c ≠ id) :
    lookupSpan (updateSpan st id f) c = lookupSpan st c := by
  induction st with
  | nil => rfl
  | cons hd tl ih =>
    obtain ⟨k, d⟩ := hd
    by_cases hk : k = id
    · subst hk
      have hkc : ¬ k = c := fun hc => h (hc.symm)
      simp [updateSpan, lookupSpan, hkc, ih]
    · by_cases hkc : k = c
      · subst hkc
        simp [updateSpan, lookupSpan, hk, ih]
      · simp [updateSpan, lookupSpan, hk, hkc, ih]

end TracingDistributed

namespace TracingOtlp

theorem toLeBytes_length (n w : Nat) : (toLeBytes n w).length = w := by
  induction w generalizing n with
  | zero => rfl
  | succ w ih => simp [toLeBytes, ih]

theorem fromLeBytes_toLeBytes (n w : Nat) :
    fromLeBytes (toLeBytes n w) = n % 256 ^ w := by
  induction w generalizing n with
  | zero => simp [toLeBytes, fromLeBytes, Nat.mod_one]
  | succ w ih =>
    have hdvd : (256 : Nat) ∣ 256 * 256 ^ w := dvd_mul_right _ _
    have hstep : n % 256 + 256 * (n / 256 % 256 ^ w) = n % (256 * 256 ^ w) := by
      conv_rhs => rw [← Nat.mod_add_div (n % (256 * 256 ^ w)) 256]
      rw [Nat.mod_mod_of_dvd _ hdvd, Nat.mod_mul_right_div_self]
    simp only [toLeBytes, fromLeBytes, ih, hstep]
    rw [pow_succ, Nat.mul_comm (256 ^ w) 256]

theorem toLeBytes_ne_nil (n w : Nat) (h : 0 < w) : toLeBytes n w ≠ [] := by
  intro hnil
  have := toLeBytes_length n w
  rw [hnil] at this
  simp at this
  omega

end TracingOtlp

namespace Claims

open TracingDistributed TracingOtlp

/-- C8 (confirmed): the OTLP `Span` produced by `Otlp::report_span` carries
`trace_id` as the 16 little-endian bytes of the 128-bit trace id (decoding
little-endian recovers the integer), `span_id` as the 8 little-endian bytes
of the 64-bit span id, and `parent_span_id` empty iff `parent_id` is absent,
otherwise the parent's 8 little-endian bytes. -/
theorem otlp_encoding_round_trip (span : SpanRec Visitor Nat Nat)
    (events : List (EventRec Visitor Nat Nat))
    (ht : span.trace_id < 2 ^ 128) (hs : span.id < 2 ^ 64) :
    fromLeBytes (otlpSpanOf span events).trace_id = span.trace_id
    ∧ (otlpSpanOf span events).trace_id.length = 16
    ∧ fromLeBytes (otlpSpanOf span events).span_id = span.id
    ∧ (otlpSpanOf span events).span_id.length = 8
    ∧ ((otlpSpanOf span events).parent_span_id = [] ↔ span.parent_id = none)
    ∧ (∀ p, span.parent_id = some p → p < 2 ^ 64 →
        fromLeBytes (otlpSpanOf span events).parent_span_id = p
        ∧ (otlpSpanOf span events).parent_span_id.length = 8) := by
  have h128 : (256 : Nat) ^ 16 = 2 ^ 128 := by norm_num
  have h64 : (256 : Nat) ^ 8 = 2 ^ 64 := by norm_num
  refine ⟨?_, ?_, ?_, ?_, ?_, ?_⟩
  · rw [otlpSpanOf, fromLeBytes_toLeBytes, h128, Nat.mod_eq_of_lt ht]
  · exact toLeBytes_length _ _
  · rw [otlpSpanOf, fromLeBytes_toLeBytes, h64, Nat.mod_eq_of_lt hs]
  · exact toLeBytes_length _ _
  · cases hp : span.parent_id with
    | none => simp [otlpSpanOf, hp]
    | some p => simp [otlpSpanOf, hp, toLeBytes_ne_nil p 8 (by norm_num)]
  · intro p hp hlt
    have hps : (otlpSpanOf span events).parent_span_id = toLeBytes p 8 := by
      simp [otlpSpanOf, hp]
    constructor
    · rw [hps, fromLeBytes_toLeBytes, h64, Nat.mod_eq_of_lt hlt]
    · rw [hps]
      exact toLeBytes_length _ _

/-- The completed span of end-to-end scenario F of the spec:
`trace_id = 0x0123456789ABCDEF0123456789ABCDEF`,
`span_id = 0x0102030405060708`, `parent_id = Some(0x1112131415161718)`. -/
def scenarioFSpan : SpanRec Visitor Nat Nat :=
  { id := 0x0102030405060708
    name := "f"
    trace_id := 0x0123456789ABCDEF0123456789ABCDEF
    parent_id := some 0x1112131415161718
    follows_from := none
    initialized_at := 0
    completed_at := 1
    service_name := ""
    values := [] }

/-- C8 witness: the round-trip at scenario F's concrete span, together with
the very byte lists the spec asserts for that span. -/
theorem otlp_encoding_round_trip_witness :
    fromLeBytes (otlpSpanOf scenarioFSpan []).trace_id = 0x0123456789ABCDEF0123456789ABCDEF
    ∧ ((otlpSpanOf scenarioFSpan []).parent_span_id = [] ↔
        (some 0x1112131415161718 : Option Nat) = none)
    ∧ (otlpSpanOf scenarioFSpan []).trace_id =
        [0xEF, 0xCD, 0xAB, 0x89, 0x67, 0x45, 0x23, 0x01,
         0xEF, 0xCD, 0xAB, 0x89, 0x67, 0x45, 0x23, 0x01]
    ∧ (otlpSpanOf scenarioFSpan []).span_id =
        [0x08, 0x07, 0x06, 0x05, 0x04, 0x03, 0x02, 0x01] := by
  have h := otlp_encoding_round_trip scenarioFSpan [] (by decide) (by decide)
  exact ⟨h.1, h.2.2.2.2.1, by decide, by decide⟩

/-- C2 (amended): for every reported span, `initialized_at ≤ completed_at`
and export start ≤ export end hold provided the wall clock did not go
backward between open and close (and the times fit the epoch/`u64` range);
the code does not clamp `completed_at` to `initialized_at` — the only
substitution `system_time_to_unix_nanos` performs is `0` for times before
the Unix epoch. -/
theorem reported_span_times_ordered {V S T : Type} (L : TelemetryLayer S T)
    (d : SpanData V S T) (now : Int) (rec : SpanRec V S T)
    (evs : List (EventRec V S T))
    (hrep : on_close_data L d now = some (rec, evs))
    (h0 : 0 ≤ d.scratch.span_init_at) (hle : d.scratch.span_init_at ≤ now)
    (hnow : now < 2 ^ 64) :
    rec.initialized_at ≤ rec.completed_at
    ∧ system_time_to_unix_nanos rec.initialized_at ≤
        system_time_to_unix_nanos rec.completed_at
    ∧ (∀ t : Int, t < 0 → system_time_to_unix_nanos t = 0) := by
  cases hctx : d.scratch.trace_ctx with
  | none => simp [on_close_data, hctx] at hrep
  | some ctx =>
    simp only [on_close_data, hctx, Option.some.injEq, Prod.mk.injEq] at hrep
    obtain ⟨hrec, hevs⟩ := hrep
    subst hrec
    refine ⟨hle, ?_, ?_⟩
    · simp only [system_time_to_unix_nanos]
      rw [if_neg (by omega), if_neg (by omega)]
      have hpow : (2 : Int) ^ 64 = 18446744073709551616 := by norm_num
      have hpn : (2 : Nat) ^ 64 = 18446744073709551616 := by norm_num
      rw [hpow] at hnow
      rw [hpn]
      have h2 : now.toNat < 18446744073709551616 := by omega
      calc d.scratch.span_init_at.toNat % 18446744073709551616
          ≤ d.scratch.span_init_at.toNat := Nat.mod_le _ _
        _ ≤ now.toNat := by omega
        _ = now.toNat % 18446744073709551616 := (Nat.mod_eq_of_lt h2).symm
    · intro t ht
      simp [system_time_to_unix_nanos, ht]

/-- A traced span whose scratch records open time 5 (nanoseconds after the
epoch). -/
def lateOpenData : SpanData Unit Nat Nat :=
  { parent := none
    name := "a"
    scratch :=
      { span_init_at := 5
        promoted := 1
        visitor := ()
        events := []
        trace_ctx := some { parent_span := none, trace_id := 7 }
        follows_from := none } }

/-- C2 counterexample: closing `lateOpenData` at wall-clock time 3 (the
clock stepped backward from 5 to 3) reports a span with
`completed_at = 3 < 5 = initialized_at`, and its export end timestamp 3
precedes the export start timestamp 5: `completed_at` is not clamped to
`initialized_at`. -/
theorem completed_at_not_clamped_cex :
    ((on_close_data { service_name := "svc", promote_span_id := fun n => n }
        lateOpenData 3).map fun r => (r.1.initialized_at, r.1.completed_at)) =
      some (5, 3)
    ∧ ¬ (5 : Int) ≤ 3
    ∧ system_time_to_unix_nanos 3 < system_time_to_unix_nanos 5 := by
  refine ⟨rfl, by decide, by decide⟩

/-- The record reported when `lateOpenData` closes at 9. -/
def lateOpenReported : SpanRec Unit Nat Nat :=
  { id := 1
    name := "a"
    trace_id := 7
    parent_id := none
    follows_from := none
    initialized_at := 5
    completed_at := 9
    service_name := "svc"
    values := () }

/-- C2 witness: the amended statement at a concrete traced span opened at 5
and closed at 9 with the clock running forward. -/
theorem reported_span_times_ordered_witness :
    on_close_data { service_name := "svc", promote_span_id := fun n => n }
        lateOpenData 9 = some (lateOpenReported, [])
    ∧ lateOpenReported.initialized_at ≤ lateOpenReported.completed_at
    ∧ system_time_to_unix_nanos lateOpenReported.initialized_at ≤
        system_time_to_unix_nanos lateOpenReported.completed_at := by
  have h := reported_span_times_ordered
    { service_name := "svc", promote_span_id := fun n => n } lateOpenData 9
    lateOpenReported [] rfl (by decide) (by decide) (by norm_num)
  exact ⟨rfl, h.1, h.2.1⟩

/-- C1 (amended): the `parent_id` of every span reported by `on_close` is
exactly the `parent_span` field of the span's `TraceCtx` — `Some(p)` when the
`TraceCtx` recorded a parent (the remote parent from `register_root`, or the
dynamic parent's promoted id captured at open) and `None` when it recorded
none.  `on_close` never consults the registry's dynamic parent: the result
is the same in any registry that stores the same data for the closing span,
whatever its other spans. -/
theorem on_close_parent_id_is_trace_ctx_parent {V S T : Type}
    (L : TelemetryLayer S T) (st : Registry V S T) (id : Nat) (now : Int)
    (d : SpanData V S T) (ctx : TraceCtx S T)
    (hd : lookupSpan st id = some d) (hctx : d.scratch.trace_ctx = some ctx) :
    ((on_close L st id now).1.map fun r => r.1.parent_id) = some ctx.parent_span
    ∧ ∀ st2 : Registry V S T, lookupSpan st2 id = some d →
        ((on_close L st2 id now).1.map fun r => r.1.parent_id) =
          some ctx.parent_span := by
  have key : ∀ st3 : Registry V S T, lookupSpan st3 id = some d →
      ((on_close L st3 id now).1.map fun r => r.1.parent_id) =
        some ctx.parent_span := by
    intro st3 h3
    simp [on_close, h3, on_close_data, hctx]
  exact ⟨key st hd, key⟩

/-- The state of the C1 run after: span 1 opened with no parent and no trace
context, span 2 opened under span 1 (inheriting nothing). -/
def c1Opened : Registry Unit Nat Nat :=
  on_new_span { service_name := "svc", promote_span_id := fun n => n }
    (on_new_span { service_name := "svc", promote_span_id := fun n => n }
      [] 1 none "a" 0 ())
    2 (some 1) "b" 1 ()

/-- The state of the C1 run after span 2, while current, called
`register_dist_tracing_root(7, None)`. -/
def c1Rooted : Registry Unit Nat Nat :=
  match register_dist_tracing_root c1Opened (some 2) true 7 none with
  | .ok st => st
  | .error _ => c1Opened

/-- C1 counterexample: span 2 was opened under span 1 (the registry reports
dynamic parent 1, whose promoted id is 1), then called
`register_dist_tracing_root(7, None)`; its `TraceCtx` carries
`parent_span = None`, so on close the reported `parent_id` is `None` — not
the dynamic parent's promoted id `Some 1` that the claim's second branch
requires. -/
theorem on_close_ignores_dynamic_parent_cex :
    register_dist_tracing_root c1Opened (some 2) true 7 none = .ok c1Rooted
    ∧ ((lookupSpan c1Rooted 2).map fun d => d.parent) = some (some 1)
    ∧ ((lookupSpan c1Rooted 1).map fun d => d.scratch.promoted) = some 1
    ∧ ((lookupSpan c1Rooted 2).map fun d =>
        d.scratch.trace_ctx.map fun t => t.parent_span) = some (some none)
    ∧ ((on_close { service_name := "svc", promote_span_id := fun n => n }
          c1Rooted 2 2).1.map fun r => r.1.parent_id) = some none
    ∧ (some none : Option (Option Nat)) ≠ some (some 1) := by
  refine ⟨rfl, rfl, rfl, rfl, rfl, by decide⟩

/-- C1 witness: the amended statement at a span whose `TraceCtx` carries a
remote parent `Some 246`, closing in a one-span registry. -/
theorem on_close_parent_id_witness :
    ((on_close { service_name := "svc", promote_span_id := fun n => n }
        ([(3, lateOpenData)] : Registry Unit Nat Nat) 3 9).1.map
          fun r => r.1.parent_id) = some none := by
  have h := on_close_parent_id_is_trace_ctx_parent
    { service_name := "svc", promote_span_id := fun n => n }
    ([(3, lateOpenData)] : Registry Unit Nat Nat) 3 9 lateOpenData
    { parent_span := none, trace_id := 7 } rfl rfl
  exact h.1

/-- C5 (confirmed): `on_close` hands a record to `report_span` iff the
closing span's scratch holds a `TraceCtx`; a span without one is silently
discarded — nothing is reported and no error is raised, the scratch is
simply destroyed. -/
theorem on_close_reports_iff_trace_ctx {V S T : Type} (L : TelemetryLayer S T)
    (st : Registry V S T) (id : Nat) (now : Int) (d : SpanData V S T)
    (hd : lookupSpan st id = some d) :
    ((on_close L st id now).1.isSome ↔ d.scratch.trace_ctx.isSome)
    ∧ (d.scratch.trace_ctx = none →
        on_close L st id now = (none, removeSpan st id)) := by
  constructor
  · cases hctx : d.scratch.trace_ctx <;>
      simp [on_close, hd, on_close_data, hctx]
  · intro hctx
    simp [on_close, hd, on_close_data, hctx]

/-- An untraced span: scratch with no `TraceCtx`. -/
def untracedData : SpanData Unit Nat Nat :=
  { parent := none
    name := "u"
    scratch :=
      { span_init_at := 0
        promoted := 4
        visitor := ()
        events := []
        trace_ctx := none
        follows_from := none } }

/-- C5 witness: in a registry holding the untraced span 4, closing it
reports nothing; the iff and the silent-discard equation hold at this
concrete input. -/
theorem on_close_reports_iff_trace_ctx_witness :
    ((on_close { service_name := "svc", promote_span_id := fun n => n }
        ([(4, untracedData)] : Registry Unit Nat Nat) 4 1).1.isSome ↔
      untracedData.scratch.trace_ctx.isSome)
    ∧ (untracedData.scratch.trace_ctx = none →
        on_close { service_name := "svc", promote_span_id := fun n => n }
          ([(4, untracedData)] : Registry Unit Nat Nat) 4 1 =
          (none, removeSpan [(4, untracedData)] 4)) :=
  on_close_reports_iff_trace_ctx
    { service_name := "svc", promote_span_id := fun n => n }
    [(4, untracedData)] 4 1 untracedData rfl

/-- C6 (confirmed): immediately after `on_new_span`, the opened span's
scratch holds exactly the open timestamp, the promoted id computed by
`promote_span_id` from the native id, the visitor primed with the opening
attributes, an empty pending-events list and no follows-from link; it holds
a `TraceCtx` iff the dynamic parent's scratch held one at that moment, and
then it is `{ trace_id := parent's trace_id, parent_span := some (parent's
promoted id) }`.  Moreover a later `register_dist_tracing_root` on the
parent rewrites only the parent's entry, so the already-opened child's
context never changes. -/
theorem on_new_span_scratch_contents {V S T : Type} :
    (∀ (L : TelemetryLayer S T) (st : Registry V S T) (id : Nat)
        (parent : Option Nat) (name : String) (now : Int) (vis : V)
        (d : SpanData V S T),
      lookupSpan (on_new_span L st id parent name now vis) id = some d →
      d.parent = parent
      ∧ d.name = name
      ∧ d.scratch.span_init_at = now
      ∧ d.scratch.promoted = L.promote_span_id id
      ∧ d.scratch.visitor = vis
      ∧ d.scratch.events = []
      ∧ d.scratch.follows_from = none
      ∧ (d.scratch.trace_ctx.isSome ↔
          ∃ p pd, parent = some p ∧ lookupSpan st p = some pd
            ∧ pd.scratch.trace_ctx.isSome)
      ∧ (∀ p pd pctx, parent = some p → lookupSpan st p = some pd →
          pd.scratch.trace_ctx = some pctx →
          d.scratch.trace_ctx =
            some { parent_span := some pd.scratch.promoted
                   trace_id := pctx.trace_id }))
    ∧ (∀ (st : Registry V S T) (p : Nat) (tid : T) (rp : Option S)
        (st2 : Registry V S T),
      register_dist_tracing_root st (some p) true tid rp = .ok st2 →
      ∀ c, c ≠ p → lookupSpan st2 c = lookupSpan st c) := by
  constructor
  · intro L st id parent name now vis d hd
    have hunfold : on_new_span L st id parent name now vis =
        (id, { parent := parent, name := name, scratch :=
          { span_init_at := now
            promoted := L.promote_span_id id
            visitor := vis
            events := []
            trace_ctx := (parent.bind fun p => (lookupSpan st p).bind fun pd =>
                pd.scratch.trace_ctx.map fun t => (t.trace_id, pd.scratch.promoted)).map
              fun ti => { parent_span := some ti.2, trace_id := ti.1 }
            follows_from := none } }) :: st := rfl
    rw [hunfold, lookupSpan_cons_self, Option.some.injEq] at hd
    subst hd
    refine ⟨rfl, rfl, rfl, rfl, rfl, rfl, rfl, ?_, ?_⟩
    · cases parent with
      | none => simp
      | some p =>
        cases hlp : lookupSpan st p with
        | none => simp [hlp]
        | some pd =>
          cases hc : pd.scratch.trace_ctx with
          | none => simp [hlp, hc]
          | some pctx => simp [hlp, hc]
    · intro p pd pctx hp hlp hctx
      subst hp
      simp [hlp, hctx]
  · intro st p tid rp st2 hreg c hc
    simp only [register_dist_tracing_root, if_pos rfl, if_true,
      Except.ok.injEq] at hreg
    subst hreg
    exact lookupSpan_updateSpan_ne st p c _ hc

/-- A dynamic parent that is part of a trace: its scratch holds
`TraceCtx { parent_span := some 246, trace_id := 135 }` and promoted id 1. -/
def tracedParentData : SpanData Unit Nat Nat :=
  { parent := none
    name := "f"
    scratch :=
      { span_init_at := 0
        promoted := 1
        visitor := ()
        events := []
        trace_ctx := some { parent_span := some 246, trace_id := 135 }
        follows_from := none } }

/-- The registry after opening span 2 under the traced span 1. -/
def childOpenReg : Registry Unit Nat Nat :=
  on_new_span { service_name := "svc", promote_span_id := fun n => n }
    [(1, tracedParentData)] 2 (some 1) "g" 4 ()

/-- Span 2's data right after it opened under the traced span 1. -/
def childOpenData : SpanData Unit Nat Nat :=
  { parent := some 1
    name := "g"
    scratch :=
      { span_init_at := 4
        promoted := 2
        visitor := ()
        events := []
        trace_ctx := some { parent_span := some 1, trace_id := 135 }
        follows_from := none } }

/-- `childOpenReg` after span 1 called `register_dist_tracing_root(77, None)`
— a context change on the parent after the child opened. -/
def childRootedReg : Registry Unit Nat Nat :=
  match register_dist_tracing_root childOpenReg (some 1) true 77 none with
  | .ok st => st
  | .error _ => childOpenReg

/-- C6 witness: opening span 2 under the traced span 1 gives scratch with
open time 4, promoted id 2, empty events, no follows-from, and the inherited
context `{ trace_id := 135, parent_span := some 1 }`; re-rooting span 1
afterwards leaves span 2's entry untouched. -/
theorem on_new_span_scratch_contents_witness :
    lookupSpan childOpenReg 2 = some childOpenData
    ∧ childOpenData.scratch.span_init_at = 4
    ∧ childOpenData.scratch.promoted = 2
    ∧ childOpenData.scratch.events = []
    ∧ childOpenData.scratch.follows_from = none
    ∧ childOpenData.scratch.trace_ctx =
        some { parent_span := some 1, trace_id := 135 }
    ∧ register_dist_tracing_root childOpenReg (some 1) true 77 none =
        .ok childRootedReg
    ∧ lookupSpan childRootedReg 2 = lookupSpan childOpenReg 2 := by
  have h := (on_new_span_scratch_contents (V := Unit) (S := Nat) (T := Nat)).1
    { service_name := "svc", promote_span_id := fun n => n }
    [(1, tracedParentData)] 2 (some 1) "g" 4 () childOpenData rfl
  exact ⟨rfl, h.2.2.1, h.2.2.2.1, h.2.2.2.2.2.1, h.2.2.2.2.2.2.1,
    h.2.2.2.2.2.2.2.2 1 tracedParentData
      { parent_span := some 246, trace_id := 135 } rfl rfl rfl,
    rfl,
    (on_new_span_scratch_contents (V := Unit) (S := Nat) (T := Nat)).2
      childOpenReg 1 77 none childRootedReg rfl 2 (by decide)⟩

/-- C7 (confirmed): `current_dist_trace_ctx` consults only the current
span's own scratch: with no active span it fails with `NoEnabledSpan`; with
an active span whose scratch holds a `TraceCtx` it returns that context's
`trace_id` paired with the current span's own promoted `SpanId`; with an
active span whose scratch holds none it fails with
`NoParentNodeHasTraceCtx`; and its result depends only on the current
span's registry entry, never on ancestor spans. -/
theorem current_ctx_from_own_scratch {V S T : Type} :
    (∀ (st : Registry V S T) (registryOk : Bool),
      current_dist_trace_ctx st none registryOk = .error .NoEnabledSpan)
    ∧ (∀ (st : Registry V S T) (c : Nat) (d : SpanData V S T)
        (t : TraceCtx S T),
      lookupSpan st c = some d → d.scratch.trace_ctx = some t →
      current_dist_trace_ctx st (some c) true =
        .ok (t.trace_id, d.scratch.promoted))
    ∧ (∀ (st : Registry V S T) (c : Nat) (d : SpanData V S T),
      lookupSpan st c = some d → d.scratch.trace_ctx = none →
      current_dist_trace_ctx st (some c) true =
        .error .NoParentNodeHasTraceCtx)
    ∧ (∀ (st st2 : Registry V S T) (c : Nat),
      lookupSpan st c = lookupSpan st2 c →
      current_dist_trace_ctx st (some c) true =
        current_dist_trace_ctx st2 (some c) true) := by
  refine ⟨fun st registryOk => rfl, ?_, ?_, ?_⟩
  · intro st c d t hd ht
    simp [current_dist_trace_ctx, hd, ht]
  · intro st c d hd ht
    simp [current_dist_trace_ctx, hd, ht]
  · intro st st2 c h
    simp only [current_dist_trace_ctx, h]

/-- C7 witness: at a registry holding the traced span 1 (context
`{ parent_span := some 246, trace_id := 135 }`, promoted id 1) and the
untraced span 4: the traced current span yields `ok (135, 1)` — its own
promoted id, not the remote parent 246 — the untraced one
`NoParentNodeHasTraceCtx`, no current span `NoEnabledSpan`, and dropping the
unrelated entry does not change the result for span 1. -/
theorem current_ctx_from_own_scratch_witness :
    current_dist_trace_ctx
        ([(1, tracedParentData), (4, untracedData)] : Registry Unit Nat Nat)
        none true = .error .NoEnabledSpan
    ∧ current_dist_trace_ctx
        ([(1, tracedParentData), (4, untracedData)] : Registry Unit Nat Nat)
        (some 1) true = .ok (135, 1)
    ∧ current_dist_trace_ctx
        ([(1, tracedParentData), (4, untracedData)] : Registry Unit Nat Nat)
        (some 4) true = .error .NoParentNodeHasTraceCtx
    ∧ current_dist_trace_ctx
        ([(1, tracedParentData), (4, untracedData)] : Registry Unit Nat Nat)
        (some 1) true =
      current_dist_trace_ctx ([(1, tracedParentData)] : Registry Unit Nat Nat)
        (some 1) true := by
  refine ⟨(current_ctx_from_own_scratch (V := Unit) (S := Nat) (T := Nat)).1 _ true,
    (current_ctx_from_own_scratch (V := Unit) (S := Nat) (T := Nat)).2.1
      _ 1 tracedParentData { parent_span := some 246, trace_id := 135 } rfl rfl,
    (current_ctx_from_own_scratch (V := Unit) (S := Nat) (T := Nat)).2.2.1
      _ 4 untracedData rfl rfl,
    (current_ctx_from_own_scratch (V := Unit) (S := Nat) (T := Nat)).2.2.2
      _ _ 1 rfl⟩

/-- C3 (amended): `report_event` always returns normally (it is a no-op),
and `report_span` returns normally — queueing the encoded span for the
worker — whenever the worker's channel receiver is still alive; but if the
worker thread has terminated, the `expect` on the channel send panics
instead of logging to a side channel or dropping, so "never panics" does not
hold unconditionally. -/
theorem report_calls_failure_behavior :
    (∀ (span : SpanRec Visitor Nat Nat)
        (events : List (EventRec Visitor Nat Nat)),
      Otlp.report_span true span events = .ok (otlpSpanOf span events))
    ∧ (∀ e : EventRec Visitor Nat Nat, Otlp.report_event e = ())
    ∧ (∀ (span : SpanRec Visitor Nat Nat)
        (events : List (EventRec Visitor Nat Nat)),
      Otlp.report_span false span events =
        .error "Worker thread should not crash") :=
  ⟨fun _ _ => rfl, fun _ => rfl, fun _ _ => rfl⟩

/-- A minimal completed span for the OTLP sink. -/
def plainSpan : SpanRec Visitor Nat Nat :=
  { id := 1
    name := "s"
    trace_id := 2
    parent_id := none
    follows_from := none
    initialized_at := 0
    completed_at := 1
    service_name := ""
    values := [] }

/-- C3 counterexample: with the worker thread terminated (channel receiver
gone), `report_span` does not return normally — the `expect` panics — so
the failure is not handled locally by logging or dropping. -/
theorem report_span_panics_cex :
    (Otlp.report_span false plainSpan []).isOk = false := rfl

/-- C4 (confirmed): `on_event` resolves the parent by precedence (explicit
parent, else none when explicitly root, else the current span); with no
parent it immediately reports an event with `trace_id = None` and
`parent_id = None`; with a parent whose scratch lacks a `TraceCtx` (or no
such span) the event is dropped and the state unchanged; with a traced
parent the event — `trace_id = Some(parent's trace_id)`, `parent_id =
Some(parent's promoted id)` — is appended to the parent's pending-events
list. -/
theorem on_event_effect {V S T : Type} :
    (∀ (p : Nat) (isRoot : Bool) (current : Option Nat),
      resolveEventParent (some p) isRoot current = some p)
    ∧ (∀ current : Option Nat, resolveEventParent none true current = none)
    ∧ (∀ current : Option Nat, resolveEventParent none false current = current)
    ∧ (∀ (L : TelemetryLayer S T) (st : Registry V S T) (ep : Option Nat)
        (isRoot : Bool) (cur : Option Nat) (now : Int) (vis : V),
      resolveEventParent ep isRoot cur = none →
      on_event L st ep isRoot cur now vis =
        (.reported { trace_id := none, parent_id := none, initialized_at := now
                     service_name := L.service_name, values := vis }, st))
    ∧ (∀ (L : TelemetryLayer S T) (st : Registry V S T) (ep : Option Nat)
        (isRoot : Bool) (cur : Option Nat) (now : Int) (vis : V) (p : Nat),
      resolveEventParent ep isRoot cur = some p →
      ((lookupSpan st p).bind fun sd => sd.scratch.trace_ctx) = none →
      on_event L st ep isRoot cur now vis = (.dropped, st))
    ∧ (∀ (L : TelemetryLayer S T) (st : Registry V S T) (ep : Option Nat)
        (isRoot : Bool) (cur : Option Nat) (now : Int) (vis : V) (p : Nat)
        (sd : SpanData V S T) (ctx : TraceCtx S T),
      resolveEventParent ep isRoot cur = some p →
      lookupSpan st p = some sd → sd.scratch.trace_ctx = some ctx →
      (on_event L st ep isRoot cur now vis).1 =
        .attached p { trace_id := some ctx.trace_id
                      parent_id := some sd.scratch.promoted
                      initialized_at := now
                      service_name := L.service_name
                      values := vis }
      ∧ ((lookupSpan (on_event L st ep isRoot cur now vis).2 p).map fun d =>
            d.scratch.events) =
          some (sd.scratch.events ++
            [{ trace_id := some ctx.trace_id
               parent_id := some sd.scratch.promoted
               initialized_at := now
               service_name := L.service_name
               values := vis }])) := by
  refine ⟨fun p isRoot current => rfl, fun current => rfl, fun current => rfl,
    ?_, ?_, ?_⟩
  · intro L st ep isRoot cur now vis h
    simp only [on_event, h]
  · intro L st ep isRoot cur now vis p h hbind
    simp only [on_event, h]
    cases hl : lookupSpan st p with
    | none => simp
    | some sd =>
      rw [hl] at hbind
      simp only [Option.some_bind] at hbind
      simp [hbind]
  · intro L st ep isRoot cur now vis p sd ctx h hsd hctx
    constructor
    · simp only [on_event, h, hsd, hctx]
    · simp only [on_event, h, hsd, hctx]
      rw [lookupSpan_updateSpan_self, hsd]
      rfl

/-- C4 witness: with the traced span 1 (trace id 135, promoted id 1) and the
untraced span 4 live, a rootless event with no current span is reported
immediately with no ids, an event under the untraced span 4 is dropped with
the registry unchanged, and an event under the traced span 1 is attached to
span 1's pending list carrying `trace_id = some 135` and
`parent_id = some 1`. -/
theorem on_event_effect_witness :
    on_event { service_name := "svc", promote_span_id := fun n => n }
        ([(1, tracedParentData), (4, untracedData)] : Registry Unit Nat Nat)
        none true none 2 () =
      (.reported { trace_id := none, parent_id := none, initialized_at := 2
                   service_name := "svc", values := () },
        [(1, tracedParentData), (4, untracedData)])
    ∧ on_event { service_name := "svc", promote_span_id := fun n => n }
        ([(1, tracedParentData), (4, untracedData)] : Registry Unit Nat Nat)
        (some 4) false none 2 () =
      (.dropped, [(1, tracedParentData), (4, untracedData)])
    ∧ (on_event { service_name := "svc", promote_span_id := fun n => n }
        ([(1, tracedParentData), (4, untracedData)] : Registry Unit Nat Nat)
        (some 1) false none 2 ()).1 =
      .attached 1 { trace_id := some 135, parent_id := some 1
                    initialized_at := 2, service_name := "svc", values := () } := by
  refine ⟨(on_event_effect (V := Unit) (S := Nat) (T := Nat)).2.2.2.1
      { service_name := "svc", promote_span_id := fun n => n }
      [(1, tracedParentData), (4, untracedData)] none true none 2 () rfl,
    (on_event_effect (V := Unit) (S := Nat) (T := Nat)).2.2.2.2.1
      { service_name := "svc", promote_span_id := fun n => n }
      [(1, tracedParentData), (4, untracedData)] (some 4) false none 2 () 4
      rfl rfl,
    ((on_event_effect (V := Unit) (S := Nat) (T := Nat)).2.2.2.2.2
      { service_name := "svc", promote_span_id := fun n => n }
      [(1, tracedParentData), (4, untracedData)] (some 1) false none 2 () 1
      tracedParentData { parent_span := some 246, trace_id := 135 }
      rfl rfl rfl).1⟩

theorem requestSpans_mkRequest (resource : Resource) (spans : List ProtoSpan) :
    requestSpans (mkRequest resource spans) = spans := rfl

/-- C9 (confirmed): when the interval has elapsed and the POST of the
non-empty batch fails at the transport level, the worker's buffer afterwards
is exactly the failed batch, in its original order (taken back out of the
very request that failed), so the next elapsed tick's request carries those
same spans again; no span of the batch is lost by a single transport
failure. -/
theorem worker_restores_failed_batch (resource : Resource)
    (buffer : List ProtoSpan) (recv : RecvOutcome)
    (hrecv : recv ≠ .disconnected)
    (hne : bufferAfterRecv buffer recv ≠ []) :
    run_loop_step resource buffer recv true true =
      { buffer := bufferAfterRecv buffer recv
        request := some (mkRequest resource (bufferAfterRecv buffer recv))
        halted := false }
    ∧ (run_loop_step resource (bufferAfterRecv buffer recv)
          .timeout true false).request =
        some (mkRequest resource (bufferAfterRecv buffer recv)) := by
  cases recv with
  | disconnected => exact absurd rfl hrecv
  | recvSpan s =>
    simp only [bufferAfterRecv] at hne ⊢
    exact ⟨by simp [run_loop_step, run_loop_send, hne, requestSpans_mkRequest],
      by simp [run_loop_step, run_loop_send, hne]⟩
  | timeout =>
    simp only [bufferAfterRecv] at hne ⊢
    exact ⟨by simp [run_loop_step, run_loop_send, hne, requestSpans_mkRequest],
      by simp [run_loop_step, run_loop_send, hne]⟩

/-- C9 witness: one buffered encoded span, a timeout receive, elapsed
interval, failing POST: the buffer keeps exactly that span and the next
successful tick posts it. -/
theorem worker_restores_failed_batch_witness :
    run_loop_step (Worker.mkResource []) [otlpSpanOf plainSpan []]
        .timeout true true =
      { buffer := [otlpSpanOf plainSpan []]
        request := some (mkRequest (Worker.mkResource [])
          [otlpSpanOf plainSpan []])
        halted := false }
    ∧ (run_loop_step (Worker.mkResource []) [otlpSpanOf plainSpan []]
          .timeout true false).request =
        some (mkRequest (Worker.mkResource []) [otlpSpanOf plainSpan []]) :=
  worker_restores_failed_batch (Worker.mkResource [])
    [otlpSpanOf plainSpan []] .timeout (by decide) (by decide)

/-- The layer `Builder::default().build(..)` returns when the endpoint
parses (extracted through the `Result`). -/
def builtDefault : OtlpLayer :=
  match Builder.default.build true with
  | some ol => ol
  | none =>
    { layer := { service_name := "", promote_span_id := fun n => n }
      send_interval := 0
      resource_attributes := []
      http_headers := [] }

/-- A traced span with the OTLP visitor type, for closing under the built
layer. -/
def tracedVisitorData : SpanData Visitor Nat Nat :=
  { parent := none
    name := "f"
    scratch :=
      { span_init_at := 0
        promoted := 1
        visitor := []
        events := []
        trace_ctx := some { parent_span := none, trace_id := 135 }
        follows_from := none } }

/-- The record reported when `tracedVisitorData` closes at 1 under
`builtDefault.layer`: its `service_name` is the empty string. -/
def closeRecBuilt : SpanRec Visitor Nat Nat :=
  { id := 1
    name := "f"
    trace_id := 135
    parent_id := none
    follows_from := none
    initialized_at := 0
    completed_at := 1
    service_name := ""
    values := [] }

/-- C10 (confirmed): the layer `Builder::build` returns has layer-level
service name fixed to the empty string, so every completed `Span` record
produced by `on_close` and every `Event` record produced by `on_event`
under it carries `service_name = ""` regardless of `Builder::service_name`;
that builder method only appends a `service.name` resource attribute, which
is passed through to the worker's export-batch resource. -/
theorem build_layer_service_name_empty (b : Builder) (sn : String)
    (ol : OtlpLayer) (hb : b.build true = some ol) :
    ol.layer.service_name = ""
    ∧ (∀ (d : SpanData Visitor Nat Nat) (now : Int)
        (rec : SpanRec Visitor Nat Nat)
        (evs : List (EventRec Visitor Nat Nat)),
      on_close_data ol.layer d now = some (rec, evs) → rec.service_name = "")
    ∧ (∀ (st : Registry Visitor Nat Nat) (ep : Option Nat) (isRoot : Bool)
        (cur : Option Nat) (now : Int) (vis : Visitor)
        (e : EventRec Visitor Nat Nat),
      (on_event ol.layer st ep isRoot cur now vis).1 = .reported e →
      e.service_name = "")
    ∧ (∀ (st : Registry Visitor Nat Nat) (ep : Option Nat) (isRoot : Bool)
        (cur : Option Nat) (now : Int) (vis : Visitor) (p : Nat)
        (e : EventRec Visitor Nat Nat),
      (on_event ol.layer st ep isRoot cur now vis).1 = .attached p e →
      e.service_name = "")
    ∧ (b.service_name sn).resource_attributes =
        b.resource_attributes ++ [("service.name", .stringValue sn)]
    ∧ (b.service_name sn).send_interval = b.send_interval
    ∧ (b.service_name sn).headers = b.headers
    ∧ ol.resource_attributes = b.resource_attributes := by
  simp only [Builder.build, if_true, Option.some.injEq] at hb
  subst hb
  refine ⟨rfl, ?_, ?_, ?_, rfl, rfl, rfl, rfl⟩
  · intro d now rec evs hrep
    cases hctx : d.scratch.trace_ctx with
    | none => simp [on_close_data, hctx] at hrep
    | some ctx =>
      simp only [on_close_data, hctx, Option.some.injEq, Prod.mk.injEq] at hrep
      obtain ⟨hrec, _⟩ := hrep
      subst hrec
      rfl
  · intro st ep isRoot cur now vis e h
    cases hres : resolveEventParent ep isRoot cur with
    | none =>
      simp only [on_event, hres, EventEffect.reported.injEq] at h
      subst h
      rfl
    | some p =>
      simp only [on_event, hres] at h
      cases hl : lookupSpan st p with
      | none => simp [hl] at h
      | some sd =>
        cases hc : sd.scratch.trace_ctx with
        | none => simp [hl, hc] at h
        | some ctx => simp [hl, hc] at h
  · intro st ep isRoot cur now vis p e h
    cases hres : resolveEventParent ep isRoot cur with
    | none => simp [on_event, hres] at h
    | some q =>
      simp only [on_event, hres] at h
      cases hl : lookupSpan st q with
      | none => simp [hl] at h
      | some sd =>
        cases hc : sd.scratch.trace_ctx with
        | none => simp [hl, hc] at h
        | some ctx =>
          simp only [hl, hc, EventEffect.attached.injEq] at h
          obtain ⟨_, he⟩ := h
          subst he
          rfl

/-- C10 witness: the default builder's built layer has service name "";
closing the traced span under it reports a record with `service_name = ""`;
and `service_name("svc")` on the default builder only appends the
`service.name` resource attribute. -/
theorem build_layer_service_name_empty_witness :
    Builder.default.build true = some builtDefault
    ∧ builtDefault.layer.service_name = ""
    ∧ on_close_data builtDefault.layer tracedVisitorData 1 =
        some (closeRecBuilt, [])
    ∧ closeRecBuilt.service_name = ""
    ∧ (Builder.default.service_name "svc").resource_attributes =
        [("service.name", .stringValue "svc")] := by
  have h := build_layer_service_name_empty Builder.default "svc"
    builtDefault rfl
  exact ⟨rfl, h.1, rfl,
    h.2.1 tracedVisitorData 1 closeRecBuilt [] rfl, rfl⟩

end Claims
